import Mathlib

/-!
Verification development for the ghost command runner.

Two subsystems are embedded shallowly from the Go source:

* `runner` — `internal/runner/executor.go`: `Execute` spawns a child
  process with redirected stdin/stdout/stderr, optionally bounded by a
  wall-clock deadline, and classifies the outcome into
  success / failed / timeout.  The environment's contribution (whether
  the files could be opened, how `cmd.Run()` ended, whether the
  deadline context had expired) is passed explicitly as an `ExecEnv`
  value, and `Execute` reproduces the Go control flow over it.

* `webhook` — `internal/webhook/{client,retry,config}.go`: the delivery
  client. `calculateBackoff` is embedded over `ℚ` (idealising Go's
  float64 arithmetic) with the random jitter sample passed explicitly,
  including the final truncating conversion to `time.Duration`
  (whole nanoseconds); `isRetryableStatus` mirrors the status switch;
  `send` reproduces the retry loop of `Client.Send`, with the sequence
  of per-attempt HTTP outcomes supplied by the environment as a
  function from attempt index to outcome.

Durations are in nanoseconds throughout (Go's `time.Duration` unit).
-/

namespace runner

/-- Execution status of a command (`Status` constants in executor.go). -/
inductive Status where
  | success
  | failed
  | timeout
deriving DecidableEq, Repr

/-- The string value each `Status` constant carries in the Go source. -/
def Status.toGoString : Status → String
  | .success => "success"
  | .failed => "failed"
  | .timeout => "timeout"

/-- `runner.Config` from executor.go. `Timeout` is in nanoseconds; 0 means
no timeout. -/
structure Config where
  Command : String
  Args : List String
  InputFile : String
  OutputFile : String
  StderrFile : String
  Verbose : Bool
  Timeout : Nat
deriving Repr

/-- `runner.Result` from executor.go. -/
structure Result where
  Command : String
  Status : Status
  ExitCode : Int
  ExecutionTime : Int
deriving DecidableEq, Repr

/-- How `cmd.Run()` can end when it returns a non-nil error:
either an `*exec.ExitError` (process ran and terminated unsuccessfully),
whose `Sys()` value may (`some code`, giving `ExitStatus() = code`) or may
not (`none`) be decodable as a `syscall.WaitStatus`; or any other error,
which executor.go treats as a failure to start the command. -/
inductive RunError where
  | exitError (waitStatus : Option Int)
  | startError
deriving DecidableEq, Repr

/-- The environment-determined outcomes of the effectful steps inside
`Execute`: whether opening the input file succeeded, whether creating the
output and stderr files (with their parent directories) succeeded, what
`cmd.Run()` returned (`none` = nil error), whether the deadline context
had expired (`ctx.Err() == context.DeadlineExceeded`, only consulted when
a timeout was configured), and the measured elapsed milliseconds. -/
structure ExecEnv where
  inputOpenOk : Bool
  outputCreateOk : Bool
  stderrCreateOk : Bool
  runError : Option RunError
  ctxDeadlineExceeded : Bool
  executionTime : Int
deriving DecidableEq, Repr

/-- The audit command string built at the top of `Execute`:
program plus space-joined args. -/
def fullCommand (config : Config) : String :=
  if config.Args.length > 0 then
    config.Command ++ " " ++ String.intercalate " " config.Args
  else
    config.Command

/-- `runner.Execute` from executor.go, over an explicit environment.
Mirrors the Go control flow: open input (error out on failure), create
output and stderr files (error out on failure), run the command, then
classify: nil error → success with exit code 0; deadline context expired
(only when a timeout was configured) → timeout with exit code −1;
`*exec.ExitError` → failed, exit code from the decoded wait status or 1
when it cannot be decoded; any other error → "failed to start command". -/
def Execute (config : Config) (env : ExecEnv) : Except String Result :=
  if env.inputOpenOk = false then
    Except.error ("failed to open input file " ++ config.InputFile)
  else if env.outputCreateOk = false then
    Except.error "failed to create output file"
  else if env.stderrCreateOk = false then
    Except.error "failed to create stderr file"
  else
    match env.runError with
    | none =>
        Except.ok ⟨fullCommand config, Status.success, 0, env.executionTime⟩
    | some e =>
        if 0 < config.Timeout ∧ env.ctxDeadlineExceeded = true then
          Except.ok ⟨fullCommand config, Status.timeout, -1, env.executionTime⟩
        else
          match e with
          | RunError.exitError (some code) =>
              Except.ok ⟨fullCommand config, Status.failed, code, env.executionTime⟩
          | RunError.exitError none =>
              Except.ok ⟨fullCommand config, Status.failed, 1, env.executionTime⟩
          | RunError.startError =>
              Except.error "failed to start command"

end runner

namespace webhook

/-- `webhook.RetryConfig` from config.go. Delays in nanoseconds;
the multiplier is a float64, idealised as `ℚ`. -/
structure RetryConfig where
  MaxRetries : Nat
  InitialDelay : Int
  MaxDelay : Int
  Multiplier : ℚ
deriving DecidableEq, Repr

/-- `webhook.DefaultRetryConfig` from config.go. -/
def DefaultRetryConfig : RetryConfig :=
  ⟨3, 1000000000, 30000000000, 2⟩

/-- `webhook.Config` from config.go. `Timeout` in nanoseconds. -/
structure Config where
  URL : String
  Method : String
  Headers : List (String × String)
  Timeout : Nat
  AuthType : String
  AuthToken : String
deriving DecidableEq, Repr

/-- `webhook.Client` from client.go: the `http.Client`'s per-request
timeout (nanoseconds) plus the stored configuration. -/
structure Client where
  httpClientTimeout : Nat
  config : Config
  retryConfig : RetryConfig
  verbose : Bool
deriving DecidableEq, Repr

/-- `webhook.NewClient` from client.go. Go mutates the caller's `Config`
through the pointer; here the updated `Config` is returned alongside the
client. A nil retry config (`none`) is replaced by `DefaultRetryConfig`
in the client only. The `http.Client` is built with a fixed 10-second
per-request timeout. -/
def NewClient (config : Config) (retryConfig : Option RetryConfig)
    (verbose : Bool) : Config × Client :=
  let config1 := if config.Method = "" then { config with Method := "POST" } else config
  let config2 :=
    if config1.Timeout = 0 then { config1 with Timeout := 30000000000 } else config1
  let rc := retryConfig.getD DefaultRetryConfig
  (config2, ⟨10000000000, config2, rc, verbose⟩)

/-- Truncation of a rational toward zero: Go's conversion of a float64
to `time.Duration` (an int64 of nanoseconds). -/
def durationOfRat (q : ℚ) : Int :=
  if q < 0 then Int.ceil q else Int.floor q

/-- `webhook.calculateBackoff` from retry.go, with the sample `u` of
`rand.Float64()` (uniform on `[0,1)`) passed explicitly and float64
arithmetic idealised over `ℚ`:
for `attempt <= 0` return 0; otherwise take
`delay = InitialDelay * Multiplier^(attempt-1)`, cap it at `MaxDelay`,
add `(2u−1) · (delay/10)` of jitter, and truncate to whole nanoseconds. -/
def calculateBackoff (attempt : Int) (config : RetryConfig) (u : ℚ) : Int :=
  if attempt ≤ 0 then 0
  else
    let delay0 : ℚ := (config.InitialDelay : ℚ) * config.Multiplier ^ (attempt - 1).toNat
    let capped : ℚ := if delay0 > (config.MaxDelay : ℚ) then (config.MaxDelay : ℚ) else delay0
    let jitter : ℚ := capped * (1 / 10)
    durationOfRat (capped + (u * 2 - 1) * jitter)

/-- `webhook.isRetryableStatus` from retry.go: the switch over status
codes that sanction a retry. -/
def isRetryableStatus (code : Nat) : Bool :=
  code == 408 || code == 429 || code == 500 || code == 502 || code == 503 || code == 504

/-- Outcome of one call to `Client.sendRequest`: either a transport-level
error (`err ≠ nil`, reported with status code 0) or a received HTTP
status code (`err = nil`). -/
inductive Attempt where
  | transportErr
  | status (code : Nat)
deriving DecidableEq, Repr

/-- How `Client.Send` returns: `delivered n` — nil after `n` attempts
(2xx observed on attempt `n`); `nonRetryable n code` — the error
"attempt n failed with status code" after a non-retryable status ended
the loop; `exhausted n` — "webhook failed after n attempts" once the
retry budget ran out. -/
inductive SendOutcome where
  | delivered (attempts : Nat)
  | nonRetryable (attempts : Nat) (code : Nat)
  | exhausted (attempts : Nat)
deriving DecidableEq, Repr

/-- Total HTTP attempts the outcome reports. -/
def SendOutcome.attempts : SendOutcome → Nat
  | .delivered n => n
  | .nonRetryable n _ => n
  | .exhausted n => n

/-- The body of the retry loop in `Client.Send` (client.go), with the
environment's per-attempt outcomes given by `resp : ℕ → Attempt` and the
remaining loop iterations as structural fuel. The Go loop runs `attempt`
from 0 to `MaxRetries` inclusive, so it is entered with
`fuel = MaxRetries + 1`; when the loop falls through, Send reports
"webhook failed after MaxRetries+1 attempts". Within an iteration:
a response with `err == nil` and a 2xx status returns nil at once;
otherwise the failure is recorded, and a positive status code that is
not retryable returns that recorded error at once; anything else
(retryable status, or a transport error with status code 0) continues
to the next attempt. -/
def sendLoop (resp : Nat → Attempt) (maxRetries : Nat) :
    Nat → Nat → SendOutcome
  | _, 0 => .exhausted (maxRetries + 1)
  | attempt, fuel + 1 =>
    match resp attempt with
    | .transportErr => sendLoop resp maxRetries (attempt + 1) fuel
    | .status code =>
        if 200 ≤ code ∧ code < 300 then
          .delivered (attempt + 1)
        else if 0 < code ∧ isRetryableStatus code = false then
          .nonRetryable (attempt + 1) code
        else
          sendLoop resp maxRetries (attempt + 1) fuel

/-- `Client.Send` from client.go, after the payload has been marshalled,
on a run that is not cancelled externally: the retry loop over the
environment's attempt outcomes. -/
def send (resp : Nat → Attempt) (maxRetries : Nat) : SendOutcome :=
  sendLoop resp maxRetries 0 (maxRetries + 1)

/-- An attempt outcome on which the loop in `Client.Send` stops:
a 2xx success, or a received positive status that is not retryable. -/
def halts (a : Attempt) : Bool :=
  match a with
  | .transportErr => false
  | .status code =>
      (200 ≤ code && code < 300) || (0 < code && !(isRetryableStatus code))

/-- An attempt outcome that is a received 2xx status. -/
def is2xx (a : Attempt) : Bool :=
  match a with
  | .transportErr => false
  | .status code => 200 ≤ code && code < 300

/-- An attempt that failed with a retryable HTTP status. -/
def retryableFailure (a : Attempt) : Bool :=
  match a with
  | .transportErr => false
  | .status code => isRetryableStatus code

theorem retryable_ge_400 (code : Nat) (h : isRetryableStatus code = true) :
    400 ≤ code := by
  simp only [isRetryableStatus, Bool.or_eq_true, beq_iff_eq] at h
  omega

theorem halts_of_retryableFailure (a : Attempt) (h : retryableFailure a = true) :
    halts a = false := by
  cases a with
  | transportErr => rfl
  | status code =>
      simp only [retryableFailure] at h
      have h400 := retryable_ge_400 code h
      have h300 : ¬ code < 300 := by omega
      simp [halts, h, h300]

theorem halts_of_transportErr (a : Attempt) (h : a = Attempt.transportErr) :
    halts a = false := by
  subst h; rfl

theorem not_halt_conditions (code : Nat)
    (h : halts (Attempt.status code) = false) :
    ¬(200 ≤ code ∧ code < 300) ∧ ¬(0 < code ∧ isRetryableStatus code = false) := by
  simp only [halts] at h
  constructor
  · intro hc
    have hx : (decide (200 ≤ code) && decide (code < 300)) = true := by
      simp [hc.1, hc.2]
    rw [hx] at h
    simp at h
  · intro hc
    have h1 : decide (0 < code) = true := by simp [hc.1]
    rw [h1, hc.2] at h
    simp at h

theorem sendLoop_attempts_le (resp : Nat → Attempt) (maxRetries : Nat) :
    ∀ fuel attempt, attempt + fuel = maxRetries + 1 →
      (sendLoop resp maxRetries attempt fuel).attempts ≤ maxRetries + 1 := by
  intro fuel
  induction fuel with
  | zero =>
      intro attempt h
      simp [sendLoop, SendOutcome.attempts]
  | succ f ih =>
      intro attempt h
      simp only [sendLoop]
      cases hr : resp attempt with
      | transportErr => exact ih (attempt + 1) (by omega)
      | status code =>
          by_cases h2 : 200 ≤ code ∧ code < 300
          · simp only [if_pos h2, SendOutcome.attempts]
            omega
          · simp only [if_neg h2]
            by_cases h3 : 0 < code ∧ isRetryableStatus code = false
            · simp only [if_pos h3, SendOutcome.attempts]
              omega
            · simp only [if_neg h3]
              exact ih (attempt + 1) (by omega)

theorem sendLoop_attempts_ge (resp : Nat → Attempt) (maxRetries : Nat) :
    ∀ fuel attempt, attempt + fuel = maxRetries + 1 → 1 ≤ fuel →
      attempt + 1 ≤ (sendLoop resp maxRetries attempt fuel).attempts := by
  intro fuel
  induction fuel with
  | zero => intro attempt h h1; omega
  | succ f ih =>
      intro attempt h h1
      have hcont : attempt + 1 ≤ (sendLoop resp maxRetries (attempt + 1) f).attempts := by
        rcases Nat.eq_zero_or_pos f with hf | hf
        · subst hf
          show attempt + 1 ≤ (SendOutcome.exhausted (maxRetries + 1)).attempts
          simp only [SendOutcome.attempts]
          omega
        · have := ih (attempt + 1) (by omega) hf
          omega
      simp only [sendLoop]
      cases hr : resp attempt with
      | transportErr => exact hcont
      | status code =>
          by_cases h2 : 200 ≤ code ∧ code < 300
          · simp [if_pos h2, SendOutcome.attempts]
          · simp only [if_neg h2]
            by_cases h3 : 0 < code ∧ isRetryableStatus code = false
            · simp [if_pos h3, SendOutcome.attempts]
            · simp only [if_neg h3]
              exact hcont

theorem sendLoop_all_continue (resp : Nat → Attempt) (maxRetries : Nat)
    (h : ∀ i, halts (resp i) = false) :
    ∀ fuel attempt,
      sendLoop resp maxRetries attempt fuel = SendOutcome.exhausted (maxRetries + 1) := by
  intro fuel
  induction fuel with
  | zero => intro attempt; rfl
  | succ f ih =>
      intro attempt
      have ha := h attempt
      simp only [sendLoop]
      cases hr : resp attempt with
      | transportErr => exact ih (attempt + 1)
      | status code =>
          rw [hr] at ha
          have hc := not_halt_conditions code ha
          simp only [if_neg hc.1, if_neg hc.2]
          exact ih (attempt + 1)

theorem sendLoop_skip (resp : Nat → Attempt) (maxRetries : Nat) :
    ∀ k fuel attempt, k ≤ fuel →
      (∀ j, j < k → halts (resp (attempt + j)) = false) →
      sendLoop resp maxRetries attempt fuel =
        sendLoop resp maxRetries (attempt + k) (fuel - k) := by
  intro k
  induction k with
  | zero => intro fuel attempt _ _; rfl
  | succ n ih =>
      intro fuel attempt hk hcont
      obtain ⟨f, rfl⟩ : ∃ f, fuel = f + 1 := ⟨fuel - 1, by omega⟩
      have h0 := hcont 0 (by omega)
      rw [Nat.add_zero] at h0
      have hstep : sendLoop resp maxRetries attempt (f + 1) =
          sendLoop resp maxRetries (attempt + 1) f := by
        simp only [sendLoop]
        cases hr : resp attempt with
        | transportErr => rfl
        | status code =>
            rw [hr] at h0
            have hc := not_halt_conditions code h0
            simp only [if_neg hc.1, if_neg hc.2]
      have e1 : attempt + (n + 1) = (attempt + 1) + n := by omega
      have e2 : (f + 1) - (n + 1) = f - n := by omega
      rw [hstep, e1, e2]
      refine ih f (attempt + 1) (by omega) ?_
      intro j hj
      have := hcont (j + 1) (by omega)
      have e3 : attempt + (j + 1) = (attempt + 1) + j := by omega
      rw [e3] at this
      exact this

theorem sendLoop_delivered_2xx (resp : Nat → Attempt) (maxRetries : Nat) :
    ∀ fuel attempt n,
      sendLoop resp maxRetries attempt fuel = SendOutcome.delivered n →
      is2xx (resp (n - 1)) = true ∧ attempt < n := by
  intro fuel
  induction fuel with
  | zero =>
      intro attempt n h
      exact SendOutcome.noConfusion h
  | succ f ih =>
      intro attempt n h
      simp only [sendLoop] at h
      split at h
      · have := ih (attempt + 1) n h
        exact ⟨this.1, by omega⟩
      · rename_i code heq
        split at h
        · rename_i h2
          have hn : n = attempt + 1 := by
            injection h with h'
            omega
          subst hn
          refine ⟨?_, by omega⟩
          rw [Nat.add_sub_cancel, heq]
          simp only [is2xx, Bool.and_eq_true, decide_eq_true_eq]
          exact ⟨h2.1, h2.2⟩
        · split at h
          · exact SendOutcome.noConfusion h
          · have := ih (attempt + 1) n h
            exact ⟨this.1, by omega⟩

theorem sendLoop_step_status (resp : Nat → Attempt)
    (maxRetries attempt fuel code : Nat) (h : resp attempt = Attempt.status code) :
    sendLoop resp maxRetries attempt (fuel + 1) =
      if 200 ≤ code ∧ code < 300 then SendOutcome.delivered (attempt + 1)
      else if 0 < code ∧ isRetryableStatus code = false then
        SendOutcome.nonRetryable (attempt + 1) code
      else sendLoop resp maxRetries (attempt + 1) fuel := by
  simp only [sendLoop]
  rw [h]

/-- Claim C2, counterexample: the claimed retryable set includes 425, but
`isRetryableStatus` rejects 425, and `send` against a server that always
answers 425 stops after a single attempt even though retry budget
remains — no next attempt is made. -/
theorem retryable_claim_counterexample :
    isRetryableStatus 425 = false ∧
    send (fun _ => Attempt.status 425) 3 = SendOutcome.nonRetryable 1 425 := by
  exact ⟨rfl, by decide⟩

/-- Claim C2, amended: the delivery client's retryable HTTP status set is exactly
{408, 429, 500, 502, 503, 504} (425 is not in it): a first-attempt failure
with a status in this set is followed by a further attempt whenever budget
remains; a server always answering a retryable status exhausts the whole
budget; and any received positive non-2xx status outside the set ends `send`
immediately after one attempt with no retry. -/
theorem retryable_status_set :
    (∀ code, isRetryableStatus code = true ↔
      (code = 408 ∨ code = 429 ∨ code = 500 ∨ code = 502 ∨ code = 503 ∨ code = 504)) ∧
    (∀ resp maxRetries code, resp 0 = Attempt.status code →
      isRetryableStatus code = true → 1 ≤ maxRetries →
      2 ≤ (send resp maxRetries).attempts) ∧
    (∀ code maxRetries, isRetryableStatus code = true →
      send (fun _ => Attempt.status code) maxRetries =
        SendOutcome.exhausted (maxRetries + 1)) ∧
    (∀ resp maxRetries code, resp 0 = Attempt.status code → 0 < code →
      ¬(200 ≤ code ∧ code < 300) → isRetryableStatus code = false →
      send resp maxRetries = SendOutcome.nonRetryable 1 code) := by
  refine ⟨?_, ?_, ?_, ?_⟩
  · intro code
    simp only [isRetryableStatus, Bool.or_eq_true, beq_iff_eq]
    tauto
  · intro resp maxRetries code h0 hret hmax
    have hhalt : ∀ j, j < 1 → halts (resp (0 + j)) = false := by
      intro j hj
      have hj0 : j = 0 := by omega
      subst hj0
      rw [Nat.add_zero, h0]
      exact halts_of_retryableFailure _ (by simp [retryableFailure, hret])
    have hskip := sendLoop_skip resp maxRetries 1 (maxRetries + 1) 0 (by omega) hhalt
    show 2 ≤ (sendLoop resp maxRetries 0 (maxRetries + 1)).attempts
    rw [hskip]
    have := sendLoop_attempts_ge resp maxRetries (maxRetries + 1 - 1) (0 + 1)
      (by omega) (by omega)
    omega
  · intro code maxRetries hret
    exact sendLoop_all_continue _ maxRetries
      (fun i => halts_of_retryableFailure _ (by simp [retryableFailure, hret]))
      (maxRetries + 1) 0
  · intro resp maxRetries code h0 hpos h2xx hret
    show sendLoop resp maxRetries 0 (maxRetries + 1) = _
    rw [sendLoop_step_status resp maxRetries 0 maxRetries code h0,
      if_neg h2xx, if_pos (⟨hpos, hret⟩ : 0 < code ∧ isRetryableStatus code = false)]

/-- Claim C2 witness: concrete instances of `retryable_status_set` — 503 is
retryable and exhausts a budget of 2 retries in 3 attempts, while 400 stops
`send` after exactly one attempt. -/
theorem retryable_status_set_witness :
    isRetryableStatus 503 = true ∧
    send (fun _ => Attempt.status 503) 2 = SendOutcome.exhausted 3 ∧
    send (fun _ => Attempt.status 400) 7 = SendOutcome.nonRetryable 1 400 := by
  refine ⟨(retryable_status_set.1 503).mpr (by tauto), ?_, ?_⟩
  · exact retryable_status_set.2.2.1 503 2 rfl
  · exact retryable_status_set.2.2.2 (fun _ => Attempt.status 400) 7 400 rfl
      (by omega) (by omega) rfl

/-- Claim C3: `send` makes at most `max_retries + 1` HTTP attempts; it returns nil
as soon as a 2xx arrives after retryable failures (in particular 503, 503,
200 with a budget of 2 retries delivers after exactly 3 attempts); and if
every attempt fails with a retryable status it exhausts the budget and
reports the error with exactly `max_retries + 1` attempts. -/
theorem send_attempt_budget :
    (∀ resp maxRetries, (send resp maxRetries).attempts ≤ maxRetries + 1) ∧
    (∀ resp maxRetries k, k ≤ maxRetries →
      (∀ j, j < k → retryableFailure (resp j) = true) →
      is2xx (resp k) = true →
      send resp maxRetries = SendOutcome.delivered (k + 1)) ∧
    send (fun i => if i < 2 then Attempt.status 503 else Attempt.status 200) 2 =
      SendOutcome.delivered 3 ∧
    (∀ resp maxRetries, (∀ i, retryableFailure (resp i) = true) →
      send resp maxRetries = SendOutcome.exhausted (maxRetries + 1)) := by
  refine ⟨?_, ?_, by decide, ?_⟩
  · intro resp maxRetries
    exact sendLoop_attempts_le resp maxRetries (maxRetries + 1) 0 (by omega)
  · intro resp maxRetries k hk hfail h2
    have hskip := sendLoop_skip resp maxRetries k (maxRetries + 1) 0 (by omega)
      (by intro j hj
          rw [Nat.zero_add]
          exact halts_of_retryableFailure _ (hfail j hj))
    show sendLoop resp maxRetries 0 (maxRetries + 1) = _
    rw [hskip, Nat.zero_add]
    obtain ⟨m, hm⟩ : ∃ m, maxRetries + 1 - k = m + 1 := ⟨maxRetries - k, by omega⟩
    rw [hm]
    cases hc : resp k with
    | transportErr => rw [hc] at h2; exact Bool.noConfusion h2
    | status code =>
        rw [hc] at h2
        simp only [is2xx, Bool.and_eq_true, decide_eq_true_eq] at h2
        rw [sendLoop_step_status resp maxRetries k m code hc, if_pos h2]
  · intro resp maxRetries hall
    exact sendLoop_all_continue resp maxRetries
      (fun i => halts_of_retryableFailure _ (hall i)) (maxRetries + 1) 0

/-- Claim C3 witness: concrete instances of `send_attempt_budget` — a constant-503
server with a budget of 2 retries exhausts it in 3 attempts, and a 500
followed by 201 delivers on the second attempt. -/
theorem send_attempt_budget_witness :
    send (fun _ => Attempt.status 503) 4 = SendOutcome.exhausted 5 ∧
    send (fun j => if j < 1 then Attempt.status 500 else Attempt.status 201) 4 =
      SendOutcome.delivered 2 := by
  constructor
  · exact send_attempt_budget.2.2.2 (fun _ => Attempt.status 503) 4 (fun i => rfl)
  · exact send_attempt_budget.2.1 (fun j => if j < 1 then Attempt.status 500
      else Attempt.status 201) 4 1 (by omega)
      (by intro j hj
          have hj0 : j = 0 := by omega
          subst hj0
          decide)
      (by decide)

/-- Claim C4: `send` returns nil only when some attempt observed a 2xx status
(namely the last one), and against an endpoint that always answers 400 it
returns a non-nil error after exactly one attempt, with no retry. -/
theorem send_nil_implies_2xx :
    (∀ resp maxRetries n, send resp maxRetries = SendOutcome.delivered n →
      is2xx (resp (n - 1)) = true) ∧
    (∀ maxRetries, send (fun _ => Attempt.status 400) maxRetries =
      SendOutcome.nonRetryable 1 400) := by
  constructor
  · intro resp maxRetries n h
    exact (sendLoop_delivered_2xx resp maxRetries (maxRetries + 1) 0 n h).1
  · intro maxRetries
    show sendLoop _ maxRetries 0 (maxRetries + 1) = _
    rw [sendLoop_step_status _ maxRetries 0 maxRetries 400 rfl,
      if_neg (by omega : ¬(200 ≤ 400 ∧ 400 < 300)),
      if_pos (⟨by omega, rfl⟩ : 0 < 400 ∧ isRetryableStatus 400 = false)]

/-- Claim C4 witness: concrete instances of `send_nil_implies_2xx` — a delivery
after one attempt saw a 2xx on that attempt, and an always-400 endpoint with
budget 5 gets exactly one attempt. -/
theorem send_nil_implies_2xx_witness :
    is2xx ((fun _ => Attempt.status 204) (1 - 1)) = true ∧
    send (fun _ => Attempt.status 400) 5 = SendOutcome.nonRetryable 1 400 := by
  constructor
  · exact send_nil_implies_2xx.1 (fun _ => Attempt.status 204) 0 1 (by decide)
  · exact send_nil_implies_2xx.2 5

/-- Claim C8: a transport-level failure (request error, no status code) is treated
as retryable — an endpoint that always fails at transport level consumes the
whole budget of `max_retries + 1` attempts, and after `i + 1` leading
transport failures attempt `i + 2` is still made when budget remains — while
only a received non-retryable status ends `send` at once after one attempt. -/
theorem send_transport_error_retries :
    (∀ maxRetries, send (fun _ => Attempt.transportErr) maxRetries =
      SendOutcome.exhausted (maxRetries + 1)) ∧
    (∀ resp maxRetries i, i < maxRetries →
      (∀ j, j ≤ i → resp j = Attempt.transportErr) →
      i + 2 ≤ (send resp maxRetries).attempts) ∧
    (∀ resp maxRetries code, resp 0 = Attempt.status code → 0 < code →
      ¬(200 ≤ code ∧ code < 300) → isRetryableStatus code = false →
      send resp maxRetries = SendOutcome.nonRetryable 1 code) := by
  refine ⟨?_, ?_, ?_⟩
  · intro maxRetries
    exact sendLoop_all_continue (fun _ => Attempt.transportErr) maxRetries
      (fun i => rfl) (maxRetries + 1) 0
  · intro resp maxRetries i hi hj
    have hskip := sendLoop_skip resp maxRetries (i + 1) (maxRetries + 1) 0 (by omega)
      (by intro j hjlt
          rw [Nat.zero_add]
          exact halts_of_transportErr _ (hj j (by omega)))
    show i + 2 ≤ (sendLoop resp maxRetries 0 (maxRetries + 1)).attempts
    rw [hskip, Nat.zero_add]
    have := sendLoop_attempts_ge resp maxRetries (maxRetries + 1 - (i + 1)) (i + 1)
      (by omega) (by omega)
    omega
  · intro resp maxRetries code h0 hpos h2xx hret
    show sendLoop resp maxRetries 0 (maxRetries + 1) = _
    rw [sendLoop_step_status resp maxRetries 0 maxRetries code h0,
      if_neg h2xx, if_pos (⟨hpos, hret⟩ : 0 < code ∧ isRetryableStatus code = false)]

/-- Claim C8 witness: concrete instances of `send_transport_error_retries` — an
always-transport-failing endpoint with budget 3 uses 4 attempts; two leading
transport failures still allow a third attempt; received 404 stops at one. -/
theorem send_transport_error_retries_witness :
    send (fun _ => Attempt.transportErr) 3 = SendOutcome.exhausted 4 ∧
    3 ≤ (send (fun _ => Attempt.transportErr) 5).attempts ∧
    send (fun _ => Attempt.status 404) 5 = SendOutcome.nonRetryable 1 404 := by
  refine ⟨send_transport_error_retries.1 3, ?_, ?_⟩
  · exact send_transport_error_retries.2.1 (fun _ => Attempt.transportErr) 5 1
      (by omega) (fun j hj => rfl)
  · exact send_transport_error_retries.2.2 (fun _ => Attempt.status 404) 5 404 rfl
      (by omega) (by omega) rfl

end webhook

namespace runner

/-- Claim C1: for every `Execute` call that returns a `Result`, status is
`success` iff the exit code is 0 iff `cmd.Run()` returned nil (normal exit
before any deadline); status is `timeout` iff the deadline context expired
before normal exit, and then the exit code is −1; and status is `failed`
iff the process terminated with an exit error outside the deadline path,
in which case the exit code is nonzero. The hypothesis `hw` is the OS-level
guarantee that a decodable wait status of an `*exec.ExitError` is nonzero. -/
theorem execute_status_invariant (config : Config) (env : ExecEnv) (r : Result)
    (hr : Execute config env = Except.ok r)
    (hw : ∀ c, env.runError = some (RunError.exitError (some c)) → c ≠ 0) :
    (r.Status = Status.success ↔ r.ExitCode = 0) ∧
    (r.Status = Status.success ↔ env.runError = none) ∧
    (r.Status = Status.timeout ↔
      (env.runError ≠ none ∧ 0 < config.Timeout ∧ env.ctxDeadlineExceeded = true)) ∧
    (r.Status = Status.timeout → r.ExitCode = -1) ∧
    (r.Status = Status.failed ↔
      (∃ ws, env.runError = some (RunError.exitError ws) ∧
        ¬(0 < config.Timeout ∧ env.ctxDeadlineExceeded = true))) ∧
    (r.Status = Status.failed → r.ExitCode ≠ 0) := by
  unfold Execute at hr
  split at hr
  · exact Except.noConfusion hr
  · split at hr
    · exact Except.noConfusion hr
    · split at hr
      · exact Except.noConfusion hr
      · split at hr
        · rename_i hnone
          injection hr with hr
          subst hr
          simp [hnone]
        · rename_i e hsome
          split at hr
          · rename_i hcond
            injection hr with hr
            subst hr
            simp [hsome, hcond]
          · rename_i hcond
            cases e with
            | exitError ws =>
                cases ws with
                | some code =>
                    injection hr with hr
                    subst hr
                    have hc := hw code hsome
                    simp [hsome, hcond, hc]
                | none =>
                    injection hr with hr
                    subst hr
                    simp [hsome, hcond]
            | startError => exact Except.noConfusion hr

/-- Claim C1 witness: `execute_status_invariant` at a concrete run — all
files open, an exit error with decoded wait status 7, no deadline. -/
theorem execute_status_invariant_witness :
    ((⟨"prog", Status.failed, 7, 12⟩ : Result).Status = Status.success ↔
      (⟨"prog", Status.failed, 7, 12⟩ : Result).ExitCode = 0) ∧
    ((⟨"prog", Status.failed, 7, 12⟩ : Result).Status = Status.failed →
      (⟨"prog", Status.failed, 7, 12⟩ : Result).ExitCode ≠ 0) := by
  have h := execute_status_invariant
    ⟨"prog", [], "in.txt", "out.txt", "err.txt", false, 0⟩
    ⟨true, true, true, some (RunError.exitError (some 7)), false, 12⟩
    ⟨"prog", Status.failed, 7, 12⟩
    rfl
    (by intro c hc
        injection hc with hc
        injection hc with hc
        injection hc with hc
        omega)
  exact ⟨h.1, h.2.2.2.2.2⟩

/-- Claim C6: `Execute` partitions outcomes into errors and results with no
overlap: failure to open the input file, to create the output or stderr
files, or to start the process (outside the deadline-expired path) yields an
error and no `Result`; an exit error (nonzero exit code) or an expired
deadline always yields a fully-formed `Result` and no error. -/
theorem execute_error_partition (config : Config) (env : ExecEnv) :
    ((env.inputOpenOk = false ∨ env.outputCreateOk = false ∨
        env.stderrCreateOk = false) →
      ∃ msg, Execute config env = Except.error msg) ∧
    (env.inputOpenOk = true → env.outputCreateOk = true → env.stderrCreateOk = true →
      env.runError = some RunError.startError →
      ¬(0 < config.Timeout ∧ env.ctxDeadlineExceeded = true) →
      ∃ msg, Execute config env = Except.error msg) ∧
    (env.inputOpenOk = true → env.outputCreateOk = true → env.stderrCreateOk = true →
      ((∃ ws, env.runError = some (RunError.exitError ws)) ∨
        (env.runError ≠ none ∧ 0 < config.Timeout ∧ env.ctxDeadlineExceeded = true)) →
      ∃ r, Execute config env = Except.ok r) ∧
    (∀ msg r, Execute config env = Except.error msg →
      Execute config env = Except.ok r → False) := by
  refine ⟨?_, ?_, ?_, ?_⟩
  · intro h
    cases hin : env.inputOpenOk with
    | false => exact ⟨"failed to open input file " ++ config.InputFile,
        by simp [Execute, hin]⟩
    | true =>
        cases hout : env.outputCreateOk with
        | false => exact ⟨"failed to create output file", by simp [Execute, hin, hout]⟩
        | true =>
            cases hst : env.stderrCreateOk with
            | false => exact ⟨"failed to create stderr file",
                by simp [Execute, hin, hout, hst]⟩
            | true => rcases h with h | h | h <;> simp_all
  · intro h1 h2 h3 h4 h5
    exact ⟨"failed to start command", by simp [Execute, h1, h2, h3, h4, h5]⟩
  · intro h1 h2 h3 h
    rcases h with ⟨ws, hws⟩ | ⟨hne, hcond⟩
    · by_cases hcond : 0 < config.Timeout ∧ env.ctxDeadlineExceeded = true
      · exact ⟨⟨fullCommand config, Status.timeout, -1, env.executionTime⟩,
          by simp [Execute, h1, h2, h3, hws, hcond]⟩
      · cases ws with
        | some code => exact ⟨⟨fullCommand config, Status.failed, code,
            env.executionTime⟩, by simp [Execute, h1, h2, h3, hws, hcond]⟩
        | none => exact ⟨⟨fullCommand config, Status.failed, 1, env.executionTime⟩,
            by simp [Execute, h1, h2, h3, hws, hcond]⟩
    · obtain ⟨e, he⟩ := Option.ne_none_iff_exists'.mp hne
      exact ⟨⟨fullCommand config, Status.timeout, -1, env.executionTime⟩,
        by simp [Execute, h1, h2, h3, he, hcond]⟩
  · intro msg r herr hok
    rw [herr] at hok
    exact Except.noConfusion hok

/-- Claim C6 witness: `execute_error_partition` at concrete runs — a missing
input file yields an error, and a nonzero exit code yields a `Result`. -/
theorem execute_error_partition_witness :
    (∃ msg, Execute ⟨"p", [], "in.txt", "out.txt", "err.txt", false, 0⟩
      ⟨false, true, true, none, false, 0⟩ = Except.error msg) ∧
    (∃ r, Execute ⟨"p", [], "in.txt", "out.txt", "err.txt", false, 0⟩
      ⟨true, true, true, some (RunError.exitError (some 2)), false, 5⟩ =
        Except.ok r) := by
  constructor
  · exact (execute_error_partition _ _).1 (Or.inl rfl)
  · exact (execute_error_partition _ _).2.2.1 rfl rfl rfl (Or.inl ⟨some 2, rfl⟩)

/-- Claim C7: when the exit error's wait status cannot be decoded into a
platform wait status, `Execute` returns status `failed` with exit code 1
rather than an error. -/
theorem execute_waitstatus_fallback (config : Config) (env : ExecEnv)
    (h1 : env.inputOpenOk = true) (h2 : env.outputCreateOk = true)
    (h3 : env.stderrCreateOk = true)
    (h4 : env.runError = some (RunError.exitError none))
    (h5 : ¬(0 < config.Timeout ∧ env.ctxDeadlineExceeded = true)) :
    Execute config env =
      Except.ok ⟨fullCommand config, Status.failed, 1, env.executionTime⟩ := by
  simp [Execute, h1, h2, h3, h4, h5]

/-- Claim C7 witness: `execute_waitstatus_fallback` at a concrete run with
an undecodable wait status and no deadline. -/
theorem execute_waitstatus_fallback_witness :
    Execute ⟨"p", ["a"], "in.txt", "out.txt", "err.txt", false, 0⟩
      ⟨true, true, true, some (RunError.exitError none), false, 9⟩ =
      Except.ok ⟨"p a", Status.failed, 1, 9⟩ := by
  exact execute_waitstatus_fallback
    ⟨"p", ["a"], "in.txt", "out.txt", "err.txt", false, 0⟩
    ⟨true, true, true, some (RunError.exitError none), false, 9⟩
    rfl rfl rfl rfl (by simp)

end runner

namespace webhook

theorem calculateBackoff_core (attempt : Int) (config : RetryConfig) (u : ℚ)
    (hu0 : 0 ≤ u) (hu1 : u ≤ 1) (ha : 1 ≤ attempt)
    (hbase : (0 : ℚ) ≤ min ((config.InitialDelay : ℚ) *
      config.Multiplier ^ (attempt - 1).toNat) (config.MaxDelay : ℚ)) :
    (9 : ℚ)/10 * min ((config.InitialDelay : ℚ) *
        config.Multiplier ^ (attempt - 1).toNat) (config.MaxDelay : ℚ) - 1 <
      (calculateBackoff attempt config u : ℚ) ∧
    (calculateBackoff attempt config u : ℚ) ≤
      (11 : ℚ)/10 * min ((config.InitialDelay : ℚ) *
        config.Multiplier ^ (attempt - 1).toNat) (config.MaxDelay : ℚ) := by
  have hnot : ¬ attempt ≤ 0 := by omega
  set base : ℚ := min ((config.InitialDelay : ℚ) *
    config.Multiplier ^ (attempt - 1).toNat) (config.MaxDelay : ℚ) with hbdef
  have hcap : (if (config.InitialDelay : ℚ) * config.Multiplier ^ (attempt - 1).toNat >
      (config.MaxDelay : ℚ) then (config.MaxDelay : ℚ)
      else (config.InitialDelay : ℚ) * config.Multiplier ^ (attempt - 1).toNat) = base := by
    rw [hbdef]
    split
    · rename_i hgt
      exact (min_eq_right (le_of_lt hgt)).symm
    · rename_i hle
      exact (min_eq_left (not_lt.mp hle)).symm
  have hval : calculateBackoff attempt config u =
      durationOfRat (base + (u * 2 - 1) * (base * (1 / 10))) := by
    simp only [calculateBackoff, if_neg hnot]
    rw [hcap]
  set x : ℚ := base + (u * 2 - 1) * (base * (1 / 10)) with hxdef
  have hub : 0 ≤ u * base := mul_nonneg hu0 hbase
  have hub1 : 0 ≤ (1 - u) * base := mul_nonneg (by linarith) hbase
  have hx0 : 0 ≤ x := by rw [hxdef]; nlinarith
  have hxl : (9 : ℚ)/10 * base ≤ x := by rw [hxdef]; nlinarith
  have hxu : x ≤ (11 : ℚ)/10 * base := by rw [hxdef]; nlinarith
  have hdur : durationOfRat x = Int.floor x := by
    rw [durationOfRat, if_neg (not_lt.mpr hx0)]
  rw [hval, hdur]
  have hfl1 : x - 1 < (Int.floor x : ℚ) := Int.sub_one_lt_floor x
  have hfl2 : (Int.floor x : ℚ) ≤ x := Int.floor_le x
  clear_value x base
  constructor
  · linarith
  · linarith

end webhook

namespace webhook

/-- Claim C5, counterexample: the returned duration is the jittered value
truncated toward zero to whole nanoseconds, so it can fall below the −10%
bound: with initial_delay = 5ns, multiplier = 2, attempt 1 and the jitter
sample 0 (full −10%), the jittered value is 4.5ns and the function returns
4ns, which is less than 0.9 · base = 4.5ns — outside ±10% of base. -/
theorem calculateBackoff_claim_counterexample :
    calculateBackoff 1 ⟨3, 5, 5000000000, 2⟩ 0 = 4 ∧
    min (((5 : Int) : ℚ) * (2 : ℚ) ^ ((1 - 1 : Int)).toNat) ((5000000000 : Int) : ℚ) = 5 ∧
    ¬((9 : ℚ)/10 * 5 ≤ ((calculateBackoff 1 ⟨3, 5, 5000000000, 2⟩ 0 : Int) : ℚ)) := by
  have h : calculateBackoff 1 ⟨3, 5, 5000000000, 2⟩ 0 = 4 := by
    norm_num [calculateBackoff, durationOfRat]
  refine ⟨h, by norm_num [min_def], ?_⟩
  rw [h]
  norm_num

/-- Claim C5, amended: `calculateBackoff` returns 0 for `attempt ≤ 0`; for
`attempt ≥ 1` the jittered delay before Duration truncation lies within ±10%
of `base = min(initial_delay · multiplier^(attempt−1), max_delay)`, and the
returned whole-nanosecond value therefore lies in `(0.9·base − 1, 1.1·base]`;
with initial_delay = 100ms, multiplier = 2, max_delay = 5s the claimed ranges
hold exactly as stated: attempt 1 ∈ [90ms, 110ms], attempt 2 ∈ [180ms, 220ms],
attempt 3 ∈ [360ms, 440ms], attempt 10 ∈ [4.5s, 5.5s]. -/
theorem calculateBackoff_bounds (attempt : Int) (config : RetryConfig) (u : ℚ)
    (hu0 : 0 ≤ u) (hu1 : u ≤ 1)
    (hinit : 0 ≤ config.InitialDelay) (hmul : 0 ≤ config.Multiplier)
    (hmax : 0 ≤ config.MaxDelay) :
    (attempt ≤ 0 → calculateBackoff attempt config u = 0) ∧
    (1 ≤ attempt →
      ((9 : ℚ)/10 * min ((config.InitialDelay : ℚ) *
          config.Multiplier ^ (attempt - 1).toNat) (config.MaxDelay : ℚ) - 1 <
        (calculateBackoff attempt config u : ℚ) ∧
      (calculateBackoff attempt config u : ℚ) ≤
        (11 : ℚ)/10 * min ((config.InitialDelay : ℚ) *
          config.Multiplier ^ (attempt - 1).toNat) (config.MaxDelay : ℚ))) ∧
    (90000000 ≤ calculateBackoff 1 ⟨3, 100000000, 5000000000, 2⟩ u ∧
      calculateBackoff 1 ⟨3, 100000000, 5000000000, 2⟩ u ≤ 110000000) ∧
    (180000000 ≤ calculateBackoff 2 ⟨3, 100000000, 5000000000, 2⟩ u ∧
      calculateBackoff 2 ⟨3, 100000000, 5000000000, 2⟩ u ≤ 220000000) ∧
    (360000000 ≤ calculateBackoff 3 ⟨3, 100000000, 5000000000, 2⟩ u ∧
      calculateBackoff 3 ⟨3, 100000000, 5000000000, 2⟩ u ≤ 440000000) ∧
    (4500000000 ≤ calculateBackoff 10 ⟨3, 100000000, 5000000000, 2⟩ u ∧
      calculateBackoff 10 ⟨3, 100000000, 5000000000, 2⟩ u ≤ 5500000000) := by
  refine ⟨?_, ?_, ?_, ?_, ?_, ?_⟩
  · intro h
    simp [calculateBackoff, h]
  · intro ha
    have hbase : (0 : ℚ) ≤ min ((config.InitialDelay : ℚ) *
        config.Multiplier ^ (attempt - 1).toNat) (config.MaxDelay : ℚ) :=
      le_min (mul_nonneg (by exact_mod_cast hinit) (pow_nonneg hmul _))
        (by exact_mod_cast hmax)
    exact calculateBackoff_core attempt config u hu0 hu1 ha hbase
  · have hc := calculateBackoff_core 1 ⟨3, 100000000, 5000000000, 2⟩ u hu0 hu1
      (by norm_num) (by norm_num [le_min_iff])
    have h1 := hc.1
    have h2 := hc.2
    norm_num [min_def] at h1 h2
    constructor
    · have h3 : (89999999 : Int) < calculateBackoff 1 ⟨3, 100000000, 5000000000, 2⟩ u := by
        exact_mod_cast h1
      omega
    · exact_mod_cast h2
  · have hc := calculateBackoff_core 2 ⟨3, 100000000, 5000000000, 2⟩ u hu0 hu1
      (by norm_num) (by norm_num [le_min_iff])
    have h1 := hc.1
    have h2 := hc.2
    norm_num [min_def] at h1 h2
    constructor
    · have h3 : (179999999 : Int) < calculateBackoff 2 ⟨3, 100000000, 5000000000, 2⟩ u := by
        exact_mod_cast h1
      omega
    · exact_mod_cast h2
  · have hc := calculateBackoff_core 3 ⟨3, 100000000, 5000000000, 2⟩ u hu0 hu1
      (by norm_num) (by norm_num [le_min_iff])
    have h1 := hc.1
    have h2 := hc.2
    rw [show ((3 - 1 : Int)).toNat = 2 from rfl] at h1 h2
    norm_num [min_def] at h1 h2
    constructor
    · have h3 : (359999999 : Int) < calculateBackoff 3 ⟨3, 100000000, 5000000000, 2⟩ u := by
        exact_mod_cast h1
      omega
    · exact_mod_cast h2
  · have hc := calculateBackoff_core 10 ⟨3, 100000000, 5000000000, 2⟩ u hu0 hu1
      (by norm_num) (by norm_num [le_min_iff])
    have h1 := hc.1
    have h2 := hc.2
    rw [show ((10 - 1 : Int)).toNat = 9 from rfl] at h1 h2
    norm_num [min_def] at h1 h2
    constructor
    · have h3 : (4499999999 : Int) < calculateBackoff 10 ⟨3, 100000000, 5000000000, 2⟩ u := by
        exact_mod_cast h1
      omega
    · exact_mod_cast h2

/-- Claim C5 witness: `calculateBackoff_bounds` at the jitter sample 1/2 —
attempt 1 stays at or above 90ms, attempt 10 at or below 5.5s, and a
non-positive attempt returns 0. -/
theorem calculateBackoff_bounds_witness :
    90000000 ≤ calculateBackoff 1 ⟨3, 100000000, 5000000000, 2⟩ (1/2) ∧
    calculateBackoff 10 ⟨3, 100000000, 5000000000, 2⟩ (1/2) ≤ 5500000000 ∧
    calculateBackoff 0 ⟨3, 100000000, 5000000000, 2⟩ (1/2) = 0 := by
  have h := calculateBackoff_bounds 0 ⟨3, 100000000, 5000000000, 2⟩ (1/2)
    (by norm_num) (by norm_num) (by norm_num) (by norm_num) (by norm_num)
  exact ⟨h.2.2.1.1, h.2.2.2.2.2.2, h.1 (by norm_num)⟩

/-- Claim C9: `NewClient` rewrites the caller's `Config` in place — an empty
method becomes "POST" and a zero timeout becomes 30 seconds, while the URL,
headers, auth type and auth token are unchanged — and a missing (`none`)
retry config is replaced by the defaults (max_retries 3, initial_delay 1s,
max_delay 30s, multiplier 2) in the returned client only. -/
theorem newClient_config_mutation (config : Config)
    (retryConfig : Option RetryConfig) (verbose : Bool) :
    (NewClient config retryConfig verbose).1.Method =
      (if config.Method = "" then "POST" else config.Method) ∧
    (NewClient config retryConfig verbose).1.Timeout =
      (if config.Timeout = 0 then 30000000000 else config.Timeout) ∧
    (NewClient config retryConfig verbose).1.URL = config.URL ∧
    (NewClient config retryConfig verbose).1.Headers = config.Headers ∧
    (NewClient config retryConfig verbose).1.AuthType = config.AuthType ∧
    (NewClient config retryConfig verbose).1.AuthToken = config.AuthToken ∧
    (NewClient config retryConfig verbose).2.config =
      (NewClient config retryConfig verbose).1 ∧
    (NewClient config retryConfig verbose).2.retryConfig =
      retryConfig.getD DefaultRetryConfig ∧
    (NewClient config none verbose).2.retryConfig =
      ⟨3, 1000000000, 30000000000, 2⟩ ∧
    (NewClient config retryConfig verbose).2.verbose = verbose := by
  by_cases hm : config.Method = "" <;> by_cases ht : config.Timeout = 0 <;>
    simp [NewClient, hm, ht, DefaultRetryConfig]

/-- Claim C10: every client constructed by `NewClient` carries a fixed
per-request HTTP timeout of exactly 10 seconds, whatever the configuration
and retry policy. -/
theorem newClient_fixed_request_timeout (config : Config)
    (retryConfig : Option RetryConfig) (verbose : Bool) :
    (NewClient config retryConfig verbose).2.httpClientTimeout = 10000000000 := by
  rfl

end webhook

namespace runner

/-- Claim C6, counterexample: a failure to start the command does not always
surface as an error — when the configured deadline has already expired by
the time `cmd.Run()` returns, the deadline check comes first and `Execute`
returns a fully-formed timeout `Result` instead. -/
theorem execute_error_partition_counterexample :
    Execute ⟨"p", [], "in.txt", "out.txt", "err.txt", false, 100⟩
      ⟨true, true, true, some RunError.startError, true, 0⟩ =
      Except.ok ⟨"p", Status.timeout, -1, 0⟩ := by
  rfl

end runner
